import Mathlib

/-!
Verification of the EZLockIn study-timer core (`study_timer_gui.py`):
the session cycle engine (`StudyTimerLogic`) and the session logger
(`StudyLogger`), shallowly embedded as pure Lean functions.

The engine is single-threaded and event-driven: each command
(`start_or_resume`, `pause`, `reset_cycle`, `reset_all`) and the single-shot
timer timeout run to completion in mutual exclusion, so the engine is modelled
as a step function on an explicit state record, returning the successor state
together with the list of observable effects (cue playback requests, signal
emissions, log-row appends) in program order.  Wall-clock timestamps and the
values returned by `random.randint` are inputs of the events that consume
them; `random.randint(a, b)` is specified by the side condition
`a ≤ draw ∧ draw ≤ b` (its documented contract, inclusive on both ends).
-/

namespace EZLockIn

/-- Calendar timestamps as produced by `datetime.now()`, to the resolution the
program uses (`%Y-%m-%d %H:%M:%S`). -/
structure DateTime where
  year : Nat
  month : Nat
  day : Nat
  hour : Nat
  minute : Nat
  second : Nat
  deriving DecidableEq, Repr

/-- Zero-padded two-digit rendering, as `strftime` produces for `%m %d %H %M %S`. -/
def pad2 (n : Nat) : String :=
  if n < 10 then "0" ++ toString n else toString n

/-- Zero-padded four-digit rendering, as `strftime` produces for `%Y`. -/
def pad4 (n : Nat) : String :=
  if n < 10 then "000" ++ toString n
  else if n < 100 then "00" ++ toString n
  else if n < 1000 then "0" ++ toString n
  else toString n

/-- `start_time.strftime (percent Y - percent m - percent d)`. -/
def fmtDate (t : DateTime) : String :=
  pad4 t.year ++ "-" ++ pad2 t.month ++ "-" ++ pad2 t.day

/-- `strftime` with format `%Y-%m-%d %H:%M:%S`. -/
def fmtDateTime (t : DateTime) : String :=
  fmtDate t ++ " " ++ pad2 t.hour ++ ":" ++ pad2 t.minute ++ ":" ++ pad2 t.second

/-- Weekday names indexed Sunday = 0, matching English `strftime` `%A` output. -/
def dayNames : List String :=
  ["Sunday", "Monday", "Tuesday", "Wednesday", "Thursday", "Friday", "Saturday"]

/-- Month offsets of Sakamoto's Gregorian day-of-week algorithm. -/
def sakamotoOffsets : List Nat := [0, 3, 2, 5, 0, 3, 5, 1, 4, 6, 2, 4]

/-- Day-of-week index (Sunday = 0) of a Gregorian date, Sakamoto's method;
models the calendar arithmetic behind `strftime` `%A`. -/
def dayOfWeekIndex (y m d : Nat) : Nat :=
  let y' := if m < 3 then y - 1 else y
  (y' + y' / 4 - y' / 100 + y' / 400 + sakamotoOffsets.getD (m - 1) 0 + d) % 7

/-- Full weekday name of a date, as `start_time.strftime` with `%A` yields. -/
def dayOfWeekName (t : DateTime) : String :=
  dayNames.getD (dayOfWeekIndex t.year t.month t.day) "Sunday"

/-- Models Python `round(x, 2)`.  Python rounds half to even, Mathlib `round`
half up, but the two agree on every value this program rounds: the inputs are
`n / 60` for an integer `n`, and `n * 100 / 60 = n * 5 / 3` is never a
half-integer, so no tie ever arises. -/
def round2 (q : ℚ) : ℚ :=
  ((round (q * 100) : ℤ) : ℚ) / 100

/-- One CSV row appended by `StudyLogger.log_session`. -/
structure LogRow where
  start_time : String
  end_time : String
  net_duration_minutes : ℚ
  date : String
  day_of_week : String
  deriving DecidableEq, Repr

/-- `StudyLogger.log_session`.  `none` models Python `None` for the optional
timestamps (a `datetime` object is always truthy, `None` falsy, so
`all([start_time, end_time, net_duration_seconds > 0])` is exactly this
guard); the result is the appended row, or `none` for the silent no-op. -/
def log_session (start_time end_time : Option DateTime)
    (net_duration_seconds : ℤ) : Option LogRow :=
  match start_time, end_time with
  | some st, some et =>
    if 0 < net_duration_seconds then
      some { start_time := fmtDateTime st
             end_time := fmtDateTime et
             net_duration_minutes := round2 ((net_duration_seconds : ℚ) / 60)
             date := fmtDate st
             day_of_week := dayOfWeekName st }
    else none
  | _, _ => none

/-- The values of `self.current_state` (Python strings). -/
inductive CycleState where
  | stopped
  | studying
  | short_breaking
  | long_breaking
  | long_break_finished
  deriving DecidableEq, Repr

/-- The Python string naming each state. -/
def stateName : CycleState → String
  | .stopped => "stopped"
  | .studying => "studying"
  | .short_breaking => "short_breaking"
  | .long_breaking => "long_breaking"
  | .long_break_finished => "long_break_finished"

/-- The four audio cue keys of `config["sound_files"]`. -/
inductive Cue where
  | start_study
  | start_short_break
  | start_long_break
  | end_long_break
  deriving DecidableEq, Repr

/-- Observable effects of one engine step, in program order:
`_play_sound`, `state_changed.emit`, `time_updated.emit`,
`notification_requested.emit`, and a `StudyLogger.log_session` append. -/
inductive Effect where
  | playCue (c : Cue)
  | stateChanged (text : String) (state : String)
  | timeUpdated (totalSeconds : Nat)
  | notify (title message : String)
  | logRow (r : LogRow)
  deriving DecidableEq, Repr

/-- The numeric configuration keys the engine reads (seconds). -/
structure Config where
  study_time_min : Nat
  study_time_max : Nat
  short_break_duration : Nat
  long_break_threshold : Nat
  long_break_duration : Nat
  deriving DecidableEq, Repr

/-- The mutable fields of `StudyTimerLogic` together with its `QTimer`:
`timerActive` is `timer.isActive()`, `timerIntervalMs` the argument of the
last `timer.start`, `timerDurationProp` the `timer.setProperty("duration", _)`
value read back by `timer.property("duration")`. -/
structure Engine where
  current_state : CycleState
  is_paused : Bool
  cycle_count : Nat
  total_study_time : Nat
  current_cycle_study_time : Nat
  current_session_start_time : Option DateTime
  current_session_duration : Nat
  time_remaining_on_pause : Nat
  timerActive : Bool
  timerIntervalMs : Nat
  timerDurationProp : Nat
  deriving DecidableEq, Repr

/-- `StudyTimerLogic._clear_current_session`. -/
def _clear_current_session (s : Engine) : Engine :=
  { s with current_session_start_time := none, current_session_duration := 0 }

/-- `StudyTimerLogic.reset_cycle`. -/
def reset_cycle (s : Engine) : Engine × List Effect :=
  let s1 := _clear_current_session
    { s with timerActive := false
             cycle_count := 0
             current_state := .stopped
             is_paused := false }
  let s2 := { s1 with current_cycle_study_time := 0 }
  (s2, [Effect.stateChanged "EZLockIn\nRight-click to Start" (stateName s2.current_state),
        Effect.timeUpdated s2.total_study_time])

/-- `StudyTimerLogic.reset_all`. -/
def reset_all (s : Engine) : Engine × List Effect :=
  let p := reset_cycle { s with total_study_time := 0 }
  (p.1, p.2 ++ [Effect.timeUpdated p.1.total_study_time])

/-- `StudyTimerLogic._run_study_cycle`; `draw` is the value returned by the
`random.randint(study_time_min, study_time_max)` call. -/
def _run_study_cycle (s : Engine) (now : DateTime) (draw : Nat) : Engine × List Effect :=
  let s1 := { s with cycle_count := s.cycle_count + 1, current_state := .studying }
  let s2 := { s1 with current_session_start_time := some now
                      current_session_duration := draw }
  ({ s2 with timerDurationProp := draw
             timerActive := true
             timerIntervalMs := draw * 1000 },
   [Effect.stateChanged ("📚 Studying...\n(Round " ++ toString s2.cycle_count ++ ")")
      (stateName s2.current_state),
    Effect.playCue Cue.start_study])

/-- `StudyTimerLogic._run_short_break_cycle`. -/
def _run_short_break_cycle (cfg : Config) (s : Engine) : Engine × List Effect :=
  let s1 := { s with current_state := .short_breaking }
  ({ s1 with timerDurationProp := 0
             timerActive := true
             timerIntervalMs := cfg.short_break_duration * 1000 },
   [Effect.stateChanged "☕ Short Break..." (stateName s1.current_state),
    Effect.timeUpdated s1.total_study_time,
    Effect.playCue Cue.start_short_break])

/-- `StudyTimerLogic._run_long_break_cycle`. -/
def _run_long_break_cycle (cfg : Config) (s : Engine) : Engine × List Effect :=
  let s1 := { s with current_state := .long_breaking }
  let s2 := { s1 with current_cycle_study_time := 0 }
  ({ s2 with timerDurationProp := 0
             timerActive := true
             timerIntervalMs := cfg.long_break_duration * 1000 },
   [Effect.stateChanged "🧘 Long Break..." (stateName s1.current_state),
    Effect.timeUpdated s1.total_study_time,
    Effect.playCue Cue.start_long_break])

/-- `StudyTimerLogic.on_timer_timeout`, the single-shot timeout body.
`now` is `datetime.now()`; `draw` the `randint` result if a new study cycle
starts.  The caller (`step`) has already marked the fired timer inactive. -/
def on_timer_timeout (cfg : Config) (s : Engine) (now : DateTime) (draw : Nat) :
    Engine × List Effect :=
  match s.current_state with
  | .studying =>
    let logEffs : List Effect :=
      match s.current_session_start_time with
      | some st =>
        if 0 < s.current_session_duration then
          match log_session (some st) (some now) (s.current_session_duration : ℤ) with
          | some r => [Effect.logRow r]
          | none => []
        else []
      | none => []
    let s1 := _clear_current_session s
    let study_duration := s1.timerDurationProp
    let s2 := { s1 with total_study_time := s1.total_study_time + study_duration
                        current_cycle_study_time :=
                          s1.current_cycle_study_time + study_duration }
    let p := _run_short_break_cycle cfg s2
    (p.1, logEffs ++ p.2)
  | .short_breaking =>
    if cfg.long_break_threshold ≤ s.current_cycle_study_time then
      _run_long_break_cycle cfg s
    else
      _run_study_cycle s now draw
  | .long_breaking =>
    let s1 := { s with current_state := .long_break_finished }
    (s1, [Effect.playCue Cue.end_long_break,
          Effect.stateChanged "🎉 Long Break Ended\nRight-click to start a new cycle"
            (stateName s1.current_state),
          Effect.notify "Break Finished" "Ready to start the next session?"])
  | _ => (s, [])

/-- `StudyTimerLogic.pause`.  `observedRemainingMs` is the value
`timer.remainingTime()` returns at the moment of the call. -/
def pause (s : Engine) (observedRemainingMs : Nat) : Engine × List Effect :=
  if s.timerActive = true then
    ({ s with time_remaining_on_pause := observedRemainingMs
              timerActive := false
              is_paused := true },
     [Effect.stateChanged "⏸️ Paused" (stateName s.current_state)])
  else (s, [])

/-- `StudyTimerLogic._resume`. -/
def _resume (s : Engine) : Engine × List Effect :=
  if s.is_paused = true then
    let s1 := { s with timerActive := true
                       timerIntervalMs := s.time_remaining_on_pause
                       is_paused := false }
    let text :=
      match s1.current_state with
      | .studying => "📚 Studying...\n(Round " ++ toString s1.cycle_count ++ ")"
      | .short_breaking => "☕ Short Break..."
      | .long_breaking => "🧘 Long Break..."
      | _ => "Unknown"
    (s1, [Effect.playCue Cue.start_study,
          Effect.stateChanged text (stateName s1.current_state)])
  else (s, [])

/-- `StudyTimerLogic.start_or_resume`; `now` and `draw` feed
`_run_study_cycle` when it runs. -/
def start_or_resume (cfg : Config) (s : Engine) (now : DateTime) (draw : Nat) :
    Engine × List Effect :=
  if s.is_paused = true then
    _resume s
  else if s.current_state = CycleState.stopped ∨
          s.current_state = CycleState.long_break_finished then
    let s1 := { s with is_paused := false }
    let p := if s1.current_state = CycleState.long_break_finished
             then reset_cycle s1 else (s1, [])
    if cfg.long_break_threshold ≤ p.1.current_cycle_study_time then
      let q := _run_long_break_cycle cfg p.1
      (q.1, p.2 ++ q.2)
    else
      let q := _run_study_cycle p.1 now draw
      (q.1, p.2 ++ q.2)
  else (s, [])

/-- The engine-relevant part of `StudyTimerGUI.closeEvent` (application quit):
`logic._clear_current_session()` followed by `logic.stop()` (timer stopped). -/
def quitApp (s : Engine) : Engine × List Effect :=
  ({ _clear_current_session s with timerActive := false }, [])

/-- The external stimuli that drive the engine.  Timestamps and `randint`
results are carried by the events that consume them. -/
inductive Event where
  | startOrResume (now : DateTime) (draw : Nat)
  | timeoutFires (now : DateTime) (draw : Nat)
  | pauseCmd (observedRemainingMs : Nat)
  | resetCycleCmd
  | resetAllCmd
  | quitCmd
  deriving DecidableEq, Repr

/-- One engine step: dispatches an event to the corresponding slot.  A timeout
only runs if the single-shot timer is pending, and Qt marks the fired timer
inactive before the slot body executes. -/
def step (cfg : Config) (s : Engine) : Event → Engine × List Effect
  | .startOrResume now draw => start_or_resume cfg s now draw
  | .timeoutFires now draw =>
    if s.timerActive = true then
      on_timer_timeout cfg { s with timerActive := false } now draw
    else (s, [])
  | .pauseCmd r => pause s r
  | .resetCycleCmd => reset_cycle s
  | .resetAllCmd => reset_all s
  | .quitCmd => quitApp s

/-- `StudyTimerLogic.__init__`: fields initialised, then `reset_cycle`.
`totalFromConfig` is `config.get("total_study_time", 0)`. -/
def initEngine (totalFromConfig : Nat) : Engine × List Effect :=
  reset_cycle
    { current_state := .stopped
      is_paused := false
      cycle_count := 0
      total_study_time := totalFromConfig
      current_cycle_study_time := 0
      current_session_start_time := none
      current_session_duration := 0
      time_remaining_on_pause := 0
      timerActive := false
      timerIntervalMs := 0
      timerDurationProp := 0 }

/-- Validity of an event as a stimulus of a live engine: `randint` results lie
in the configured inclusive range, and quit is terminal (no further events are
delivered after `closeEvent`). -/
def eventOK (cfg : Config) : Event → Bool
  | .startOrResume _ d => decide (cfg.study_time_min ≤ d) && decide (d ≤ cfg.study_time_max)
  | .timeoutFires _ d => decide (cfg.study_time_min ≤ d) && decide (d ≤ cfg.study_time_max)
  | .quitCmd => false
  | _ => true

/-- States the engine can be in: freshly constructed, or one valid event after
a reachable state. -/
inductive Reachable (cfg : Config) : Engine → Prop
  | init (t : Nat) : Reachable cfg (initEngine t).1
  | next (s : Engine) (e : Event) (hs : Reachable cfg s) (he : eventOK cfg e = true) :
      Reachable cfg (step cfg s e).1

/-- Run a list of events from a state, collecting all effects in order. -/
def runEvents (cfg : Config) (s : Engine) : List Event → Engine × List Effect
  | [] => (s, [])
  | e :: rest =>
    let p := step cfg s e
    let q := runEvents cfg p.1 rest
    (q.1, p.2 ++ q.2)

/-- Is an effect a log-row append? -/
def isLogRowEff : Effect → Bool
  | .logRow _ => true
  | _ => false

/-- Number of log rows appended by a list of effects. -/
def numLogRows (l : List Effect) : Nat := l.countP isLogRowEff

/-- The cue-playback requests among a list of effects, in order. -/
def cuesOf (l : List Effect) : List Cue :=
  l.filterMap fun e =>
    match e with
    | .playCue c => some c
    | _ => none

/-- Is the event a timer timeout? -/
def isTimeoutEvent : Event → Bool
  | .timeoutFires _ _ => true
  | _ => false

end EZLockIn

namespace EZLockIn

/-- Facts holding in every reachable engine state, used by the theorems below:
while `studying`, the in-progress session is populated, its planned duration
equals the timer's `duration` property and lies in the configured range; and
`current_cycle_study_time` is zero throughout a long break and after it. -/
def Inv (cfg : Config) (s : Engine) : Prop :=
  (s.current_state = CycleState.studying →
     s.current_session_start_time.isSome = true ∧
     s.current_session_duration = s.timerDurationProp ∧
     cfg.study_time_min ≤ s.current_session_duration ∧
     s.current_session_duration ≤ cfg.study_time_max) ∧
  (s.current_state = CycleState.long_breaking → s.current_cycle_study_time = 0) ∧
  (s.current_state = CycleState.long_break_finished → s.current_cycle_study_time = 0)

theorem Inv_init (cfg : Config) (t : Nat) : Inv cfg (initEngine t).1 := by
  simp [Inv, initEngine, reset_cycle, _clear_current_session]

theorem Inv_step (cfg : Config) (s : Engine) (e : Event) (hs : Inv cfg s)
    (he : eventOK cfg e = true) : Inv cfg (step cfg s e).1 := by
  obtain ⟨h1, h2, h3⟩ := hs
  cases e with
  | quitCmd => simp [eventOK] at he
  | resetCycleCmd => simp [Inv, step, reset_cycle, _clear_current_session]
  | resetAllCmd => simp [Inv, step, reset_all, reset_cycle, _clear_current_session]
  | pauseCmd r =>
    by_cases ha : s.timerActive = true
    · simpa [Inv, step, pause, ha] using ⟨h1, h2, h3⟩
    · simpa [Inv, step, pause, ha] using ⟨h1, h2, h3⟩
  | startOrResume now draw =>
    have hd : cfg.study_time_min ≤ draw ∧ draw ≤ cfg.study_time_max := by
      simpa [eventOK, Bool.and_eq_true, decide_eq_true_eq] using he
    by_cases hp : s.is_paused = true
    · simpa [Inv, step, start_or_resume, hp, _resume] using ⟨h1, h2, h3⟩
    · by_cases hst : s.current_state = CycleState.stopped ∨
          s.current_state = CycleState.long_break_finished
      · rcases hst with hst | hst
        · by_cases hth : cfg.long_break_threshold ≤ s.current_cycle_study_time
          · simp [Inv, step, start_or_resume, hp, hst, hth, _run_long_break_cycle]
          · simp [Inv, step, start_or_resume, hp, hst, hth, _run_study_cycle]
            exact ⟨hd.1, hd.2⟩
        · by_cases hth : cfg.long_break_threshold = 0
          · simp [Inv, step, start_or_resume, hp, hst, hth, reset_cycle,
              _clear_current_session, _run_long_break_cycle]
          · simp [Inv, step, start_or_resume, hp, hst, hth, reset_cycle,
              _clear_current_session, _run_study_cycle]
            exact ⟨hd.1, hd.2⟩
      · simpa [Inv, step, start_or_resume, hp, hst] using ⟨h1, h2, h3⟩
  | timeoutFires now draw =>
    have hd : cfg.study_time_min ≤ draw ∧ draw ≤ cfg.study_time_max := by
      simpa [eventOK, Bool.and_eq_true, decide_eq_true_eq] using he
    by_cases ha : s.timerActive = true
    · cases hst : s.current_state with
      | studying =>
        simp [Inv, step, ha, on_timer_timeout, hst, _clear_current_session,
          _run_short_break_cycle]
      | short_breaking =>
        by_cases hth : cfg.long_break_threshold ≤ s.current_cycle_study_time
        · simp [Inv, step, ha, on_timer_timeout, hst, hth, _run_long_break_cycle]
        · simp [Inv, step, ha, on_timer_timeout, hst, hth, _run_study_cycle]
          exact ⟨hd.1, hd.2⟩
      | long_breaking =>
        simp [Inv, step, ha, on_timer_timeout, hst]
        exact h2 hst
      | stopped =>
        simp [Inv, step, ha, on_timer_timeout, hst]
      | long_break_finished =>
        simp [Inv, step, ha, on_timer_timeout, hst]
        exact h3 hst
    · simpa [Inv, step, ha] using ⟨h1, h2, h3⟩

theorem Inv_reachable (cfg : Config) (s : Engine) (hs : Reachable cfg s) : Inv cfg s := by
  induction hs with
  | init t => exact Inv_init cfg t
  | next s e hs he ih => exact Inv_step cfg s e ih he

end EZLockIn

namespace EZLockIn

/-- The configuration of the spec's walkthrough scenario:
`studyMin = studyMax = 5s`, `shortBreak = 2s`, `longBreakThreshold = 8s`,
`longBreak = 3s`. -/
def cfgA : Config := ⟨5, 5, 2, 8, 3⟩

/-- A concrete wall-clock instant (a Monday). -/
def dtA : DateTime := ⟨2026, 1, 5, 9, 0, 0⟩

/-- A later instant of the same day. -/
def dtB : DateTime := ⟨2026, 1, 5, 9, 30, 0⟩

/-- Freshly constructed engine with no persisted total. -/
def engine0 : Engine := (initEngine 0).1

/-- After `start_or_resume`: first study interval running (5 s drawn). -/
def sStudy1 : Engine := (step cfgA engine0 (Event.startOrResume dtA 5)).1

/-- After the first study timeout: first short break running. -/
def sShort1 : Engine := (step cfgA sStudy1 (Event.timeoutFires dtB 5)).1

/-- After the short-break timeout: second study interval running. -/
def sStudy2 : Engine := (step cfgA sShort1 (Event.timeoutFires dtB 5)).1

/-- After the second study timeout: the state the engine actually enters. -/
def sShort2 : Engine := (step cfgA sStudy2 (Event.timeoutFires dtB 5)).1

/-- After the second short-break timeout: long break running. -/
def sLong1 : Engine := (step cfgA sShort2 (Event.timeoutFires dtB 5)).1

/-- After the long-break timeout. -/
def sDone : Engine := (step cfgA sLong1 (Event.timeoutFires dtB 5)).1

/-- `sShort1` paused mid short break (1500 ms observed remaining). -/
def sShortPaused : Engine := (step cfgA sShort1 (Event.pauseCmd 1500)).1

theorem reachable_sStudy1 : Reachable cfgA sStudy1 :=
  Reachable.next engine0 (Event.startOrResume dtA 5) (Reachable.init 0) (by decide)

theorem reachable_sShort1 : Reachable cfgA sShort1 :=
  Reachable.next sStudy1 (Event.timeoutFires dtB 5) reachable_sStudy1 (by decide)

theorem reachable_sShort2 : Reachable cfgA sShort2 :=
  Reachable.next sStudy2 (Event.timeoutFires dtB 5)
    (Reachable.next sShort1 (Event.timeoutFires dtB 5) reachable_sShort1 (by decide))
    (by decide)

theorem reachable_sShortPaused : Reachable cfgA sShortPaused :=
  Reachable.next sShort1 (Event.pauseCmd 1500) reachable_sShort1 (by decide)

/-- Claim C10: calling `start_or_resume` while a phase timer is actively
running and the engine is not paused (state `studying`, `short_breaking` or
`long_breaking`, `is_paused = false`) is a complete no-op: the state record is
unchanged and no effect (cue, emission, log row) is produced. -/
theorem claim_C10 (cfg : Config) (s : Engine) (now : DateTime) (draw : Nat)
    (_ha : s.timerActive = true) (hp : s.is_paused = false)
    (hst : s.current_state = CycleState.studying ∨
           s.current_state = CycleState.short_breaking ∨
           s.current_state = CycleState.long_breaking) :
    step cfg s (Event.startOrResume now draw) = (s, []) := by
  have hp' : ¬ s.is_paused = true := by simp [hp]
  have hok : ¬ (s.current_state = CycleState.stopped ∨
      s.current_state = CycleState.long_break_finished) := by
    rcases hst with h | h | h <;> simp [h]
  simp [step, start_or_resume, hp', hok]

theorem claim_C10_witness :
    sStudy1.timerActive = true ∧ sStudy1.is_paused = false ∧
    step cfgA sStudy1 (Event.startOrResume dtB 5) = (sStudy1, []) :=
  ⟨by decide, by decide,
   claim_C10 cfgA sStudy1 dtB 5 (by decide) (by decide) (by decide)⟩

/-- Claim C5: for every active phase, pausing with `R` ms observed on the
timer snapshots exactly `R`, and a later `start_or_resume` restarts the timer
for exactly that snapshot — not a fresh draw and not the full phase duration —
leaving the interval's planned duration, the timer's `duration` property and
the phase unchanged. -/
theorem claim_C5 (cfg : Config) (s : Engine) (R : Nat) (now : DateTime) (draw : Nat)
    (ha : s.timerActive = true) :
    (step cfg s (Event.pauseCmd R)).1.time_remaining_on_pause = R ∧
    (step cfg s (Event.pauseCmd R)).1.is_paused = true ∧
    (step cfg s (Event.pauseCmd R)).1.timerActive = false ∧
    (step cfg (step cfg s (Event.pauseCmd R)).1 (Event.startOrResume now draw)).1.timerActive
      = true ∧
    (step cfg (step cfg s (Event.pauseCmd R)).1 (Event.startOrResume now draw)).1.timerIntervalMs
      = R ∧
    (step cfg (step cfg s (Event.pauseCmd R)).1
        (Event.startOrResume now draw)).1.current_session_duration
      = s.current_session_duration ∧
    (step cfg (step cfg s (Event.pauseCmd R)).1
        (Event.startOrResume now draw)).1.timerDurationProp
      = s.timerDurationProp ∧
    (step cfg (step cfg s (Event.pauseCmd R)).1 (Event.startOrResume now draw)).1.current_state
      = s.current_state ∧
    (step cfg (step cfg s (Event.pauseCmd R)).1 (Event.startOrResume now draw)).1.is_paused
      = false := by
  simp [step, pause, ha, start_or_resume, _resume]

theorem claim_C5_witness :
    sStudy1.timerActive = true ∧
    ((step cfgA sStudy1 (Event.pauseCmd 3000)).1.time_remaining_on_pause = 3000 ∧
     (step cfgA sStudy1 (Event.pauseCmd 3000)).1.is_paused = true ∧
     (step cfgA sStudy1 (Event.pauseCmd 3000)).1.timerActive = false ∧
     (step cfgA (step cfgA sStudy1 (Event.pauseCmd 3000)).1
         (Event.startOrResume dtB 5)).1.timerActive = true ∧
     (step cfgA (step cfgA sStudy1 (Event.pauseCmd 3000)).1
         (Event.startOrResume dtB 5)).1.timerIntervalMs = 3000 ∧
     (step cfgA (step cfgA sStudy1 (Event.pauseCmd 3000)).1
         (Event.startOrResume dtB 5)).1.current_session_duration
       = sStudy1.current_session_duration ∧
     (step cfgA (step cfgA sStudy1 (Event.pauseCmd 3000)).1
         (Event.startOrResume dtB 5)).1.timerDurationProp = sStudy1.timerDurationProp ∧
     (step cfgA (step cfgA sStudy1 (Event.pauseCmd 3000)).1
         (Event.startOrResume dtB 5)).1.current_state = sStudy1.current_state ∧
     (step cfgA (step cfgA sStudy1 (Event.pauseCmd 3000)).1
         (Event.startOrResume dtB 5)).1.is_paused = false) :=
  ⟨by decide, claim_C5 cfgA sStudy1 3000 dtB 5 (by decide)⟩

/-- Claim C6: the engine enters `long_breaking` (from any other state, on any
event) only if `current_cycle_study_time ≥ long_break_threshold` held
immediately beforehand; an entry below the threshold is impossible. -/
theorem claim_C6 (cfg : Config) (s : Engine) (e : Event)
    (hpre : s.current_state ≠ CycleState.long_breaking)
    (hpost : (step cfg s e).1.current_state = CycleState.long_breaking) :
    cfg.long_break_threshold ≤ s.current_cycle_study_time := by
  cases e with
  | startOrResume now draw =>
    by_cases hp : s.is_paused = true
    · simp [step, start_or_resume, hp, _resume] at hpost
      exact absurd hpost hpre
    · by_cases hst : s.current_state = CycleState.stopped ∨
          s.current_state = CycleState.long_break_finished
      · rcases hst with hst | hst
        · by_cases hth : cfg.long_break_threshold ≤ s.current_cycle_study_time
          · exact hth
          · simp [step, start_or_resume, hp, hst, hth, _run_study_cycle] at hpost
        · by_cases hth : cfg.long_break_threshold = 0
          · simp [hth]
          · simp [step, start_or_resume, hp, hst, hth, reset_cycle,
              _clear_current_session, _run_study_cycle] at hpost
      · simp [step, start_or_resume, hp, hst] at hpost
        exact absurd hpost hpre
  | timeoutFires now draw =>
    by_cases ha : s.timerActive = true
    · cases hst : s.current_state with
      | studying =>
        simp [step, ha, on_timer_timeout, hst, _clear_current_session,
          _run_short_break_cycle] at hpost
      | short_breaking =>
        by_cases hth : cfg.long_break_threshold ≤ s.current_cycle_study_time
        · exact hth
        · simp [step, ha, on_timer_timeout, hst, hth, _run_study_cycle] at hpost
      | long_breaking => exact absurd hst hpre
      | stopped =>
        simp [step, ha, on_timer_timeout, hst] at hpost
      | long_break_finished =>
        simp [step, ha, on_timer_timeout, hst] at hpost
    · simp [step, ha] at hpost
      exact absurd hpost hpre
  | pauseCmd r =>
    by_cases ha : s.timerActive = true
    · simp [step, pause, ha] at hpost
      exact absurd hpost hpre
    · simp [step, pause, ha] at hpost
      exact absurd hpost hpre
  | resetCycleCmd =>
    simp [step, reset_cycle, _clear_current_session] at hpost
  | resetAllCmd =>
    simp [step, reset_all, reset_cycle, _clear_current_session] at hpost
  | quitCmd =>
    simp [step, quitApp, _clear_current_session] at hpost
    exact absurd hpost hpre

theorem claim_C6_witness :
    sShort2.current_state ≠ CycleState.long_breaking ∧
    (step cfgA sShort2 (Event.timeoutFires dtB 5)).1.current_state
      = CycleState.long_breaking ∧
    cfgA.long_break_threshold ≤ sShort2.current_cycle_study_time :=
  ⟨by decide, by decide, claim_C6 cfgA sShort2 (Event.timeoutFires dtB 5)
    (by decide) (by decide)⟩

/-- Claim C8: whenever a study phase starts with `randint` result `draw`
(which, by `randint`'s contract, lies in the inclusive configured range), the
planned session duration equals that draw, hence lies in
`[study_time_min, study_time_max]`, and the scheduled timer delay is exactly
that duration in milliseconds, with the timer's `duration` property also
holding the draw. -/
theorem claim_C8 (cfg : Config) (s : Engine) (now : DateTime) (draw : Nat)
    (h1 : cfg.study_time_min ≤ draw) (h2 : draw ≤ cfg.study_time_max) :
    cfg.study_time_min ≤ (_run_study_cycle s now draw).1.current_session_duration ∧
    (_run_study_cycle s now draw).1.current_session_duration ≤ cfg.study_time_max ∧
    (_run_study_cycle s now draw).1.current_session_duration = draw ∧
    (_run_study_cycle s now draw).1.timerIntervalMs =
      (_run_study_cycle s now draw).1.current_session_duration * 1000 ∧
    (_run_study_cycle s now draw).1.timerDurationProp = draw ∧
    (_run_study_cycle s now draw).1.timerActive = true ∧
    (_run_study_cycle s now draw).1.current_state = CycleState.studying := by
  simp [_run_study_cycle, h1, h2]

theorem claim_C8_witness :
    cfgA.study_time_min ≤ 5 ∧ 5 ≤ cfgA.study_time_max ∧
    (cfgA.study_time_min ≤ (_run_study_cycle engine0 dtA 5).1.current_session_duration ∧
     (_run_study_cycle engine0 dtA 5).1.current_session_duration ≤ cfgA.study_time_max ∧
     (_run_study_cycle engine0 dtA 5).1.current_session_duration = 5 ∧
     (_run_study_cycle engine0 dtA 5).1.timerIntervalMs =
       (_run_study_cycle engine0 dtA 5).1.current_session_duration * 1000 ∧
     (_run_study_cycle engine0 dtA 5).1.timerDurationProp = 5 ∧
     (_run_study_cycle engine0 dtA 5).1.timerActive = true ∧
     (_run_study_cycle engine0 dtA 5).1.current_state = CycleState.studying) :=
  ⟨by decide, by decide, claim_C8 cfgA engine0 dtA 5 (by decide) (by decide)⟩

end EZLockIn

namespace EZLockIn

/-- Claim C9: `log_session` is a silent no-op (appends nothing, raises
nothing) whenever the start or end timestamp is absent or the net duration is
not positive; otherwise it appends exactly one row whose
`net_duration_minutes` is the net duration divided by 60 rounded to two
decimal places, with date and weekday taken from the start timestamp. -/
theorem claim_C9 (st et : DateTime) (n : ℤ) :
    log_session none (some et) n = none ∧
    log_session (some st) none n = none ∧
    log_session none none n = none ∧
    (n ≤ 0 → log_session (some st) (some et) n = none) ∧
    (0 < n → log_session (some st) (some et) n =
      some { start_time := fmtDateTime st
             end_time := fmtDateTime et
             net_duration_minutes := round2 ((n : ℚ) / 60)
             date := fmtDate st
             day_of_week := dayOfWeekName st }) := by
  refine ⟨rfl, rfl, rfl, ?_, ?_⟩
  · intro hn
    simp [log_session, not_lt.mpr hn]
  · intro hn
    simp [log_session, hn]

theorem claim_C9_witness :
    ((0 : ℤ) ≤ 0 ∧ log_session (some dtA) (some dtB) 0 = none) ∧
    ((0 : ℤ) < 5 ∧ log_session (some dtA) (some dtB) 5 =
      some { start_time := fmtDateTime dtA
             end_time := fmtDateTime dtB
             net_duration_minutes := round2 ((5 : ℚ) / 60)
             date := fmtDate dtA
             day_of_week := dayOfWeekName dtA }) :=
  ⟨⟨by decide, (claim_C9 dtA dtB 0).2.2.2.1 (by decide)⟩,
   ⟨by decide, (claim_C9 dtA dtB 5).2.2.2.2 (by decide)⟩⟩

/-- Claim C4 fails as stated: in the reachable state `sShortPaused` — paused
mid short break — `start_or_resume` plays the `start_study` cue, not the
`start_short_break` cue that belongs to the resumed phase. -/
theorem claim_C4_counterexample :
    Reachable cfgA sShortPaused ∧
    sShortPaused.current_state = CycleState.short_breaking ∧
    sShortPaused.is_paused = true ∧
    cuesOf (step cfgA sShortPaused (Event.startOrResume dtB 5)).2 = [Cue.start_study] ∧
    Cue.start_short_break ∉ cuesOf (step cfgA sShortPaused (Event.startOrResume dtB 5)).2 :=
  ⟨reachable_sShortPaused, by decide, by decide, by decide, by decide⟩

/-- Claim C4 (amended): resuming any paused phase replays the `start_study`
cue — the same cue for all three phases — while the phase itself is kept and
its own status text and state name are re-emitted: the full effect list is
the `start_study` cue followed by the `stateChanged` emission carrying the
resumed phase's status text. -/
theorem claim_C4_amended (cfg : Config) (s : Engine) (now : DateTime) (draw : Nat)
    (hp : s.is_paused = true) :
    cuesOf (step cfg s (Event.startOrResume now draw)).2 = [Cue.start_study] ∧
    (step cfg s (Event.startOrResume now draw)).1.current_state = s.current_state ∧
    (step cfg s (Event.startOrResume now draw)).1.is_paused = false ∧
    (s.current_state = CycleState.studying →
       (step cfg s (Event.startOrResume now draw)).2 =
         [Effect.playCue Cue.start_study,
          Effect.stateChanged
            ("📚 Studying...\n(Round " ++ toString s.cycle_count ++ ")")
            (stateName CycleState.studying)]) ∧
    (s.current_state = CycleState.short_breaking →
       (step cfg s (Event.startOrResume now draw)).2 =
         [Effect.playCue Cue.start_study,
          Effect.stateChanged "☕ Short Break..."
            (stateName CycleState.short_breaking)]) ∧
    (s.current_state = CycleState.long_breaking →
       (step cfg s (Event.startOrResume now draw)).2 =
         [Effect.playCue Cue.start_study,
          Effect.stateChanged "🧘 Long Break..."
            (stateName CycleState.long_breaking)]) := by
  refine ⟨?_, ?_, ?_, ?_, ?_, ?_⟩
  · simp [step, start_or_resume, hp, _resume, cuesOf]
  · simp [step, start_or_resume, hp, _resume]
  · simp [step, start_or_resume, hp, _resume]
  · intro h
    simp [step, start_or_resume, hp, _resume, h, stateName]
  · intro h
    simp [step, start_or_resume, hp, _resume, h, stateName]
  · intro h
    simp [step, start_or_resume, hp, _resume, h, stateName]

theorem claim_C4_witness :
    sShortPaused.is_paused = true ∧
    sShortPaused.current_state = CycleState.short_breaking ∧
    (cuesOf (step cfgA sShortPaused (Event.startOrResume dtB 5)).2 = [Cue.start_study] ∧
     (step cfgA sShortPaused (Event.startOrResume dtB 5)).1.current_state
       = sShortPaused.current_state ∧
     (step cfgA sShortPaused (Event.startOrResume dtB 5)).1.is_paused = false ∧
     (sShortPaused.current_state = CycleState.studying →
        (step cfgA sShortPaused (Event.startOrResume dtB 5)).2 =
          [Effect.playCue Cue.start_study,
           Effect.stateChanged
             ("📚 Studying...\n(Round " ++ toString sShortPaused.cycle_count ++ ")")
             (stateName CycleState.studying)]) ∧
     (sShortPaused.current_state = CycleState.short_breaking →
        (step cfgA sShortPaused (Event.startOrResume dtB 5)).2 =
          [Effect.playCue Cue.start_study,
           Effect.stateChanged "☕ Short Break..."
             (stateName CycleState.short_breaking)]) ∧
     (sShortPaused.current_state = CycleState.long_breaking →
        (step cfgA sShortPaused (Event.startOrResume dtB 5)).2 =
          [Effect.playCue Cue.start_study,
           Effect.stateChanged "🧘 Long Break..."
             (stateName CycleState.long_breaking)])) :=
  ⟨by decide, by decide, claim_C4_amended cfgA sShortPaused dtB 5 (by decide)⟩

/-- Claim C1 fails as stated: in the scenario run, at the moment the second
5-second study interval completes the engine is in `short_breaking` with
`current_cycle_study_time = 10 ≥ 8`, not in `long_breaking` — the threshold
is only consulted when the following short break times out. -/
theorem claim_C1_counterexample :
    Reachable cfgA sShort2 ∧
    sStudy2.current_state = CycleState.studying ∧
    sShort2.current_cycle_study_time = 10 ∧
    cfgA.long_break_threshold ≤ sShort2.current_cycle_study_time ∧
    sShort2.current_state = CycleState.short_breaking ∧
    sShort2.current_state ≠ CycleState.long_breaking :=
  ⟨reachable_sShort2, by decide, by decide, by decide, by decide, by decide⟩

/-- Claim C1 (amended): under `studyMin = studyMax = 5`, `shortBreak = 2`,
`threshold = 8`, `longBreak = 3`, letting every timeout fire the engine runs
Stopped → Studying (5 s) → logs one row of 0.08 min → ShortBreaking (2 s,
cycle time 5) → Studying → ShortBreaking again (cycle time 10, total 10) →
on that short break's timeout 10 ≥ 8, so LongBreaking (3 s, cycle time reset
to 0) → timeout → LongBreakFinished, with total study time 10 at the end. -/
theorem claim_C1_amended :
    sStudy1.current_state = CycleState.studying ∧ sStudy1.timerIntervalMs = 5000 ∧
    numLogRows (step cfgA sStudy1 (Event.timeoutFires dtB 5)).2 = 1 ∧
    (step cfgA sStudy1 (Event.timeoutFires dtB 5)).2 =
      [Effect.logRow
        { start_time := fmtDateTime dtA
          end_time := fmtDateTime dtB
          net_duration_minutes := 2 / 25
          date := fmtDate dtA
          day_of_week := "Monday" },
       Effect.stateChanged "☕ Short Break..." (stateName CycleState.short_breaking),
       Effect.timeUpdated 5,
       Effect.playCue Cue.start_short_break] ∧
    sShort1.current_state = CycleState.short_breaking ∧
    sShort1.timerIntervalMs = 2000 ∧
    sShort1.current_cycle_study_time = 5 ∧ sShort1.total_study_time = 5 ∧
    sStudy2.current_state = CycleState.studying ∧ sStudy2.timerIntervalMs = 5000 ∧
    sShort2.current_state = CycleState.short_breaking ∧
    sShort2.current_cycle_study_time = 10 ∧ sShort2.total_study_time = 10 ∧
    sLong1.current_state = CycleState.long_breaking ∧ sLong1.timerIntervalMs = 3000 ∧
    sLong1.current_cycle_study_time = 0 ∧
    sDone.current_state = CycleState.long_break_finished ∧
    sDone.total_study_time = 10 := by
  refine ⟨by decide, by decide, by decide, ?_, by decide, by decide, by decide,
    by decide, by decide, by decide, by decide, by decide, by decide, by decide,
    by decide, by decide, by decide, by decide⟩
  have h1 : sStudy1 =
      { current_state := CycleState.studying
        is_paused := false
        cycle_count := 1
        total_study_time := 0
        current_cycle_study_time := 0
        current_session_start_time := some dtA
        current_session_duration := 5
        time_remaining_on_pause := 0
        timerActive := true
        timerIntervalMs := 5000
        timerDurationProp := 5 } := by decide
  rw [h1]
  simp [step, on_timer_timeout, _clear_current_session, _run_short_break_cycle,
    log_session, cfgA, stateName, round2]
  norm_num [round_eq]
  decide

/-- Claim C3 fails as stated: `total_study_time` does not only increase — in
the reachable state `sShort1` it is 5, and `reset_all` drops it to 0. -/
theorem claim_C3_counterexample :
    Reachable cfgA sShort1 ∧
    sShort1.total_study_time = 5 ∧
    (step cfgA sShort1 Event.resetAllCmd).1.total_study_time = 0 ∧
    (step cfgA sShort1 Event.resetAllCmd).1.total_study_time
      < sShort1.total_study_time :=
  ⟨reachable_sShort1, by decide, by decide, by decide⟩

/-- Claim C3 (amended): apart from `reset_all`, which zeroes it,
`total_study_time` never decreases; each natural study completion adds exactly
the interval's drawn duration, and `pause`, `reset_cycle` and quitting leave
it unchanged. -/
theorem claim_C3_amended (cfg : Config) (s : Engine) (hs : Reachable cfg s) :
    ((step cfg s Event.resetAllCmd).1.total_study_time = 0) ∧
    (∀ now draw, s.current_state = CycleState.studying → s.timerActive = true →
       (step cfg s (Event.timeoutFires now draw)).1.total_study_time =
         s.total_study_time + s.current_session_duration) ∧
    (∀ e, e ≠ Event.resetAllCmd →
       s.total_study_time ≤ (step cfg s e).1.total_study_time) ∧
    (∀ r, (step cfg s (Event.pauseCmd r)).1.total_study_time = s.total_study_time) ∧
    ((step cfg s Event.resetCycleCmd).1.total_study_time = s.total_study_time) ∧
    ((step cfg s Event.quitCmd).1.total_study_time = s.total_study_time) := by
  obtain ⟨h1, -, -⟩ := Inv_reachable cfg s hs
  refine ⟨?_, ?_, ?_, ?_, ?_, ?_⟩
  · simp [step, reset_all, reset_cycle, _clear_current_session]
  · intro now draw hst ha
    obtain ⟨-, hdur, -, -⟩ := h1 hst
    simp [step, ha, on_timer_timeout, hst, _clear_current_session,
      _run_short_break_cycle, hdur]
  · intro e he
    cases e with
    | startOrResume now draw =>
      by_cases hp : s.is_paused = true
      · simp [step, start_or_resume, hp, _resume]
      · by_cases hst : s.current_state = CycleState.stopped ∨
            s.current_state = CycleState.long_break_finished
        · rcases hst with hst | hst
          · by_cases hth : cfg.long_break_threshold ≤ s.current_cycle_study_time
            · simp [step, start_or_resume, hp, hst, hth, _run_long_break_cycle]
            · simp [step, start_or_resume, hp, hst, hth, _run_study_cycle]
          · by_cases hth : cfg.long_break_threshold = 0
            · simp [step, start_or_resume, hp, hst, hth, reset_cycle,
                _clear_current_session, _run_long_break_cycle]
            · simp [step, start_or_resume, hp, hst, hth, reset_cycle,
                _clear_current_session, _run_study_cycle]
        · simp [step, start_or_resume, hp, hst]
    | timeoutFires now draw =>
      by_cases ha : s.timerActive = true
      · cases hst : s.current_state with
        | studying =>
          simp [step, ha, on_timer_timeout, hst, _clear_current_session,
            _run_short_break_cycle]
        | short_breaking =>
          by_cases hth : cfg.long_break_threshold ≤ s.current_cycle_study_time
          · simp [step, ha, on_timer_timeout, hst, hth, _run_long_break_cycle]
          · simp [step, ha, on_timer_timeout, hst, hth, _run_study_cycle]
        | long_breaking => simp [step, ha, on_timer_timeout, hst]
        | stopped => simp [step, ha, on_timer_timeout, hst]
        | long_break_finished => simp [step, ha, on_timer_timeout, hst]
      · simp [step, ha]
    | pauseCmd r =>
      by_cases ha : s.timerActive = true
      · simp [step, pause, ha]
      · simp [step, pause, ha]
    | resetCycleCmd => simp [step, reset_cycle, _clear_current_session]
    | resetAllCmd => exact absurd rfl he
    | quitCmd => simp [step, quitApp, _clear_current_session]
  · intro r
    by_cases ha : s.timerActive = true
    · simp [step, pause, ha]
    · simp [step, pause, ha]
  · simp [step, reset_cycle, _clear_current_session]
  · simp [step, quitApp, _clear_current_session]

theorem claim_C3_witness :
    sStudy1.current_state = CycleState.studying ∧ sStudy1.timerActive = true ∧
    (step cfgA sStudy1 (Event.timeoutFires dtB 5)).1.total_study_time =
      sStudy1.total_study_time + sStudy1.current_session_duration :=
  ⟨by decide, by decide,
   (claim_C3_amended cfgA sStudy1 reachable_sStudy1).2.1 dtB 5 (by decide) (by decide)⟩

end EZLockIn

namespace EZLockIn

/-- Claim C2: a step appends exactly one log row precisely when it is the
phase timeout firing while the engine is `studying` (natural completion of a
study interval); every other step — `pause`, `reset_cycle`, `reset_all`,
quitting, `start_or_resume`, or a timeout in any other phase — appends no log
row and credits no study time. -/
theorem claim_C2 (cfg : Config) (s : Engine) (e : Event)
    (hs : Reachable cfg s) (hmin : 1 ≤ cfg.study_time_min) :
    (numLogRows (step cfg s e).2 =
      if isTimeoutEvent e = true ∧ s.current_state = CycleState.studying ∧
         s.timerActive = true then 1 else 0) ∧
    (¬ (isTimeoutEvent e = true ∧ s.current_state = CycleState.studying ∧
        s.timerActive = true) →
      (step cfg s e).1.total_study_time ≤ s.total_study_time) := by
  obtain ⟨h1, -, -⟩ := Inv_reachable cfg s hs
  cases e with
  | startOrResume now draw =>
    refine ⟨?_, fun _ => ?_⟩
    · simp only [step, start_or_resume, _resume]
      split_ifs <;>
        simp_all [numLogRows, isLogRowEff, isTimeoutEvent, reset_cycle,
          _clear_current_session, _run_study_cycle, _run_long_break_cycle,
          List.countP_append, List.countP_cons, List.countP_nil]
    · simp only [step, start_or_resume, _resume]
      split_ifs <;>
        simp [reset_cycle, _clear_current_session, _run_study_cycle,
          _run_long_break_cycle]
  | timeoutFires now draw =>
    by_cases ha : s.timerActive = true
    · cases hst : s.current_state with
      | studying =>
        obtain ⟨hsome, hdur, hrange, -⟩ := h1 hst
        obtain ⟨st, hstart⟩ := Option.isSome_iff_exists.mp hsome
        have hpos : 0 < s.current_session_duration := lt_of_lt_of_le hmin hrange
        have hposZ : (0 : ℤ) < (s.current_session_duration : ℤ) := by
          exact_mod_cast hpos
        refine ⟨?_, fun hc => absurd ⟨rfl, rfl, ha⟩ hc⟩
        simp [step, ha, on_timer_timeout, hst, hstart, hpos, log_session, hposZ,
          _clear_current_session, _run_short_break_cycle, numLogRows,
          isLogRowEff, isTimeoutEvent, List.countP_append, List.countP_cons,
          List.countP_nil]
      | short_breaking =>
        by_cases hth : cfg.long_break_threshold ≤ s.current_cycle_study_time
        · exact ⟨by simp [step, ha, on_timer_timeout, hst, hth,
              _run_long_break_cycle, numLogRows, isLogRowEff, isTimeoutEvent,
              List.countP_cons, List.countP_nil],
            fun _ => by simp [step, ha, on_timer_timeout, hst, hth,
              _run_long_break_cycle]⟩
        · exact ⟨by simp [step, ha, on_timer_timeout, hst, hth,
              _run_study_cycle, numLogRows, isLogRowEff, isTimeoutEvent,
              List.countP_cons, List.countP_nil],
            fun _ => by simp [step, ha, on_timer_timeout, hst, hth,
              _run_study_cycle]⟩
      | long_breaking =>
        exact ⟨by simp [step, ha, on_timer_timeout, hst, numLogRows,
            isLogRowEff, isTimeoutEvent, List.countP_cons, List.countP_nil],
          fun _ => by simp [step, ha, on_timer_timeout, hst]⟩
      | stopped =>
        exact ⟨by simp [step, ha, on_timer_timeout, hst, numLogRows,
            isLogRowEff, isTimeoutEvent, List.countP_nil],
          fun _ => by simp [step, ha, on_timer_timeout, hst]⟩
      | long_break_finished =>
        exact ⟨by simp [step, ha, on_timer_timeout, hst, numLogRows,
            isLogRowEff, isTimeoutEvent, List.countP_nil],
          fun _ => by simp [step, ha, on_timer_timeout, hst]⟩
    · exact ⟨by simp [step, ha, numLogRows, isLogRowEff, isTimeoutEvent,
          List.countP_nil],
        fun _ => by simp [step, ha]⟩
  | pauseCmd r =>
    by_cases ha : s.timerActive = true
    · exact ⟨by simp [step, pause, ha, numLogRows, isLogRowEff, isTimeoutEvent,
          List.countP_cons, List.countP_nil],
        fun _ => by simp [step, pause, ha]⟩
    · exact ⟨by simp [step, pause, ha, numLogRows, isLogRowEff, isTimeoutEvent,
          List.countP_nil],
        fun _ => by simp [step, pause, ha]⟩
  | resetCycleCmd =>
    exact ⟨by simp [step, reset_cycle, _clear_current_session, numLogRows,
        isLogRowEff, isTimeoutEvent, List.countP_cons, List.countP_nil],
      fun _ => by simp [step, reset_cycle, _clear_current_session]⟩
  | resetAllCmd =>
    exact ⟨by simp [step, reset_all, reset_cycle, _clear_current_session,
        numLogRows, isLogRowEff, isTimeoutEvent, List.countP_append,
        List.countP_cons, List.countP_nil],
      fun _ => by simp [step, reset_all, reset_cycle, _clear_current_session]⟩
  | quitCmd =>
    exact ⟨by simp [step, quitApp, _clear_current_session, numLogRows,
        isLogRowEff, isTimeoutEvent, List.countP_nil],
      fun _ => by simp [step, quitApp, _clear_current_session]⟩

theorem claim_C2_witness :
    (1 ≤ cfgA.study_time_min) ∧
    numLogRows (step cfgA sStudy1 (Event.timeoutFires dtB 5)).2 =
      (if isTimeoutEvent (Event.timeoutFires dtB 5) = true ∧
          sStudy1.current_state = CycleState.studying ∧ sStudy1.timerActive = true
       then 1 else 0) :=
  ⟨by decide,
   (claim_C2 cfgA sStudy1 (Event.timeoutFires dtB 5) reachable_sStudy1 (by decide)).1⟩

/-- Claim C7: `current_cycle_study_time` is zeroed exactly when the engine
enters `long_breaking` — on entry, not on completion: the long-break timeout
itself leaves the counter unchanged — and no transition into `studying` or
`short_breaking` from a reachable state ever decreases (in particular resets)
it. -/
theorem claim_C7 (cfg : Config) (s : Engine) (hs : Reachable cfg s) :
    (∀ e, s.current_state ≠ CycleState.long_breaking →
       (step cfg s e).1.current_state = CycleState.long_breaking →
       (step cfg s e).1.current_cycle_study_time = 0) ∧
    (∀ now draw, s.current_state = CycleState.long_breaking →
       s.timerActive = true →
       (step cfg s (Event.timeoutFires now draw)).1.current_state
           = CycleState.long_break_finished ∧
       (step cfg s (Event.timeoutFires now draw)).1.current_cycle_study_time
           = s.current_cycle_study_time) ∧
    (∀ e, ((step cfg s e).1.current_state = CycleState.studying ∨
           (step cfg s e).1.current_state = CycleState.short_breaking) →
       s.current_cycle_study_time ≤ (step cfg s e).1.current_cycle_study_time) := by
  obtain ⟨-, -, h3⟩ := Inv_reachable cfg s hs
  refine ⟨?_, ?_, ?_⟩
  · intro e hpre hpost
    cases e with
    | startOrResume now draw =>
      by_cases hp : s.is_paused = true
      · simp [step, start_or_resume, hp, _resume] at hpost
        exact absurd hpost hpre
      · by_cases hst : s.current_state = CycleState.stopped ∨
            s.current_state = CycleState.long_break_finished
        · rcases hst with hst | hst
          · by_cases hth : cfg.long_break_threshold ≤ s.current_cycle_study_time
            · simp [step, start_or_resume, hp, hst, hth, _run_long_break_cycle]
            · simp [step, start_or_resume, hp, hst, hth, _run_study_cycle] at hpost
          · by_cases hth : cfg.long_break_threshold = 0
            · simp [step, start_or_resume, hp, hst, hth, reset_cycle,
                _clear_current_session, _run_long_break_cycle]
            · simp [step, start_or_resume, hp, hst, hth, reset_cycle,
                _clear_current_session, _run_study_cycle] at hpost
        · simp [step, start_or_resume, hp, hst] at hpost
          exact absurd hpost hpre
    | timeoutFires now draw =>
      by_cases ha : s.timerActive = true
      · cases hst : s.current_state with
        | studying =>
          simp [step, ha, on_timer_timeout, hst, _clear_current_session,
            _run_short_break_cycle] at hpost
        | short_breaking =>
          by_cases hth : cfg.long_break_threshold ≤ s.current_cycle_study_time
          · simp [step, ha, on_timer_timeout, hst, hth, _run_long_break_cycle]
          · simp [step, ha, on_timer_timeout, hst, hth, _run_study_cycle] at hpost
        | long_breaking => exact absurd hst hpre
        | stopped => simp [step, ha, on_timer_timeout, hst] at hpost
        | long_break_finished => simp [step, ha, on_timer_timeout, hst] at hpost
      · simp [step, ha] at hpost
        exact absurd hpost hpre
    | pauseCmd r =>
      by_cases ha : s.timerActive = true
      · simp [step, pause, ha] at hpost
        exact absurd hpost hpre
      · simp [step, pause, ha] at hpost
        exact absurd hpost hpre
    | resetCycleCmd => simp [step, reset_cycle, _clear_current_session] at hpost
    | resetAllCmd =>
      simp [step, reset_all, reset_cycle, _clear_current_session] at hpost
    | quitCmd =>
      simp [step, quitApp, _clear_current_session] at hpost
      exact absurd hpost hpre
  · intro now draw hst ha
    constructor
    · simp [step, ha, on_timer_timeout, hst]
    · simp [step, ha, on_timer_timeout, hst]
  · intro e hpost
    cases e with
    | startOrResume now draw =>
      by_cases hp : s.is_paused = true
      · simp [step, start_or_resume, hp, _resume]
      · by_cases hst : s.current_state = CycleState.stopped ∨
            s.current_state = CycleState.long_break_finished
        · rcases hst with hst | hst
          · by_cases hth : cfg.long_break_threshold ≤ s.current_cycle_study_time
            · simp [step, start_or_resume, hp, hst, hth,
                _run_long_break_cycle] at hpost
            · simp [step, start_or_resume, hp, hst, hth, _run_study_cycle]
          · by_cases hth : cfg.long_break_threshold = 0
            · simp [step, start_or_resume, hp, hst, hth, reset_cycle,
                _clear_current_session, _run_long_break_cycle] at hpost
            · simp [step, start_or_resume, hp, hst, hth, reset_cycle,
                _clear_current_session, _run_study_cycle]
              simp [h3 hst]
        · simp [step, start_or_resume, hp, hst]
    | timeoutFires now draw =>
      by_cases ha : s.timerActive = true
      · cases hst : s.current_state with
        | studying =>
          simp [step, ha, on_timer_timeout, hst, _clear_current_session,
            _run_short_break_cycle]
        | short_breaking =>
          by_cases hth : cfg.long_break_threshold ≤ s.current_cycle_study_time
          · simp [step, ha, on_timer_timeout, hst, hth,
              _run_long_break_cycle] at hpost
          · simp [step, ha, on_timer_timeout, hst, hth, _run_study_cycle]
        | long_breaking => simp [step, ha, on_timer_timeout, hst] at hpost
        | stopped => simp [step, ha, on_timer_timeout, hst] at hpost
        | long_break_finished => simp [step, ha, on_timer_timeout, hst] at hpost
      · simp [step, ha]
    | pauseCmd r =>
      by_cases ha : s.timerActive = true
      · simp [step, pause, ha]
      · simp [step, pause, ha]
    | resetCycleCmd => simp [step, reset_cycle, _clear_current_session] at hpost
    | resetAllCmd =>
      simp [step, reset_all, reset_cycle, _clear_current_session] at hpost
    | quitCmd => simp [step, quitApp, _clear_current_session]

theorem claim_C7_witness :
    sShort2.current_state ≠ CycleState.long_breaking ∧
    (step cfgA sShort2 (Event.timeoutFires dtB 5)).1.current_state
        = CycleState.long_breaking ∧
    (step cfgA sShort2 (Event.timeoutFires dtB 5)).1.current_cycle_study_time = 0 :=
  ⟨by decide, by decide,
   (claim_C7 cfgA sShort2 reachable_sShort2).1 (Event.timeoutFires dtB 5)
     (by decide) (by decide)⟩

end EZLockIn
